import Mathlib

/-!
Verification of `deno_terminal` (src/colors.rs, src/lib.rs): a shallow
embedding of the color-capability detection logic, the use-color flag, and
the ANSI style renderer, together with theorems settling the spec claims.

Machine-level conventions of the embedding:
* An OS environment value (`std::ffi::OsString`) is modelled by `OsString`:
  either a value decodable as text (`valid s`), or a non-decodable value
  (`invalid`). A non-decodable OS string is necessarily non-empty (the empty
  byte sequence is valid UTF-8), so `invalid.is_empty = false`.
* The process environment is a record of the six variables the code reads
  (`FORCE_COLOR`, `NO_COLOR`, `TERM`, `TMUX`, `CI`, `COLORTERM`), plus the
  compile-time platform flag used by the `cfg(platform = "windows")` arm.
  The `cfg(wasm)` build (constant `ColorLevel::None` / flag `false`) is not
  modelled; all claims concern the environment-reading build.
* A `fmt::Display` payload is modelled by the `String` it renders to, and a
  formatter sink by the ordered list of `write_str` calls it receives.
-/

namespace DenoTerminal

/-- Model of `std::ffi::OsString`: either text, or a non-decodable value. -/
inductive OsString where
  | valid (s : String)
  | invalid
deriving DecidableEq

/-- Model of `OsString::is_empty`. A non-decodable OS string is non-empty
(the empty byte string is valid UTF-8). -/
def OsString.is_empty : OsString → Bool
  | .valid s => s.isEmpty
  | .invalid => false

/-- Model of `OsStr::to_str` (UTF-8 decoding). -/
def OsString.to_str : OsString → Option String
  | .valid s => some s
  | .invalid => none

/-- Model of `OsString == "literal"` (Rust `PartialEq<str> for OsStr`): a
non-decodable OS string never equals a `str` literal. -/
def OsString.eq_str : OsString → String → Bool
  | .valid s, t => s == t
  | .invalid, _ => false

/-- The process environment restricted to the variables `colors.rs` reads,
plus the target-platform identity consulted by the
`cfg(platform = "windows")` arm. A field is `none` when the variable is
unset (`std::env::var_os` returns `None`). -/
structure Env where
  force_color_var : Option OsString
  no_color_var : Option OsString
  term_var : Option OsString
  tmux_var : Option OsString
  ci_var : Option OsString
  colorterm_var : Option OsString
  platform_windows : Bool
deriving DecidableEq

/-- Embeds `static FORCE_COLOR` (colors.rs lines 25-29):
`var_os("FORCE_COLOR").map(|v| !v.is_empty()).unwrap_or(false)`. -/
def FORCE_COLOR (env : Env) : Bool :=
  match env.force_color_var with
  | some v => !v.is_empty
  | none => false

/-- Embeds the `NO_COLOR` read used at colors.rs lines 46-48 and 72-74:
`var_os("NO_COLOR").map(|v| !v.is_empty()).unwrap_or(false)`. -/
def no_color_flag (env : Env) : Bool :=
  match env.no_color_var with
  | some v => !v.is_empty
  | none => false

/-- Embeds the `static USE_COLOR` initializer (colors.rs lines 31-51,
non-wasm arm): `true` when `FORCE_COLOR` is set non-empty, otherwise the
negation of the `NO_COLOR` signal. -/
def USE_COLOR_init (env : Env) : Bool :=
  if FORCE_COLOR env then true
  else !(no_color_flag env)

/-- Embeds `pub enum ColorLevel` (colors.rs lines 53-59). The spec names
these tiers None / Basic / Extended / TrueColor. -/
inductive ColorLevel where
  | None
  | Ansi
  | Ansi256
  | TrueColor
deriving DecidableEq

/-- Model of Rust `str::ends_with` for a string pattern: a suffix check.
Stated on the character lists of the strings; on valid UTF-8 this agrees
with Rust's byte-level check, because a byte suffix of the haystack that
matches the whole pattern necessarily starts at a character boundary. -/
def str_ends_with (s pat : String) : Bool :=
  pat.data.isSuffixOf s.data

/-- The CI vendor allow-list matched at colors.rs lines 109-118. -/
def ci_allow_list : List String :=
  ["TRAVIS", "CIRCLECI", "APPVEYOR", "GITLAB_CI", "GITHUB_ACTIONS",
   "BUILDKITE", "DRONE"]

/-- Embeds colors.rs lines 132-136: the 256-color `TERM` suffix check and
the final `ColorLevel::Ansi` default. -/
def suffix_step (term : String) : ColorLevel :=
  if str_ends_with term "-256color" || str_ends_with term "256" then
    ColorLevel.Ansi256
  else ColorLevel.Ansi

/-- Embeds colors.rs lines 126-130: the `COLORTERM` true-color check,
falling through to `suffix_step`. -/
def colorterm_step (env : Env) (term : String) : ColorLevel :=
  match env.colorterm_var with
  | some ct =>
    if ct.eq_str "truecolor" || ct.eq_str "24bit" then ColorLevel.TrueColor
    else suffix_step term
  | none => suffix_step term

/-- Embeds colors.rs lines 107-124: the `CI` identity check. A recognized
decodable value returns `Ansi256`; a non-decodable value returns `Ansi`; an
unrecognized decodable value falls through to `colorterm_step`. -/
def ci_step (env : Env) (term : String) : ColorLevel :=
  match env.ci_var with
  | some ci =>
    match ci.to_str with
    | some ci_value =>
      if ci_allow_list.contains ci_value then ColorLevel.Ansi256
      else colorterm_step env term
    | none => ColorLevel.Ansi
  | none => colorterm_step env term

/-- Embeds colors.rs lines 103-105: the `TMUX` presence check. -/
def tmux_step (env : Env) (term : String) : ColorLevel :=
  if env.tmux_var.isSome then ColorLevel.Ansi
  else ci_step env term

/-- Embeds colors.rs lines 93-101: the `cfg(platform = "windows")`
short-circuit to `TrueColor`. -/
def platform_step (env : Env) (term : String) : ColorLevel :=
  if env.platform_windows then ColorLevel.TrueColor
  else tmux_step env term

/-- Embeds the `static COLOR_LEVEL` initializer (colors.rs lines 61-138,
non-wasm arm): the `NO_COLOR` check when `FORCE_COLOR` is unset, the
`TERM == "dumb"` early return, the resolution of the `term` string
(defaulting to `"dumb"` when `TERM` is unset or non-decodable), then the
platform / TMUX / CI / COLORTERM / suffix chain. -/
def COLOR_LEVEL (env : Env) : ColorLevel :=
  if !(FORCE_COLOR env) && no_color_flag env then ColorLevel.None
  else
    match env.term_var with
    | some term_value =>
      if term_value.eq_str "dumb" && !(FORCE_COLOR env) then ColorLevel.None
      else platform_step env (term_value.to_str.getD "dumb")
    | none => platform_step env "dumb"

/-- Embeds `pub fn get_color_level` (colors.rs lines 140-142). -/
def get_color_level (env : Env) : ColorLevel :=
  COLOR_LEVEL env

/-! Spec-side restatement of §4.1, used only to settle the refinement claim
about `COLOR_LEVEL`: the nine recognized signals as an ordered rule list,
where the first rule that produces a level determines the result. Rule 1
(force-enable, a non-empty `FORCE_COLOR`) acts as the guard that disables
rules 2 and 3, exactly as §4.1 words it ("consulted only if force-enable is
absent"); rule 9 is the default `Basic` (= `Ansi`) level. -/

/-- Modelled from the spec: §4.1 rule 3's signal, "terminal type string
equals the non-capable sentinel" (`TERM == "dumb"`). -/
def spec_term_dumb (env : Env) : Bool :=
  match env.term_var with
  | some tv => tv.eq_str "dumb"
  | none => false

/-- Modelled from the spec: §4.1 rule 6's outcome, `Extended` (= `Ansi256`)
for an allow-listed decodable CI identity, `Basic` (= `Ansi`) for a
non-decodable one, and no outcome otherwise. -/
def spec_ci_rule (env : Env) : Option ColorLevel :=
  match env.ci_var with
  | some ci =>
    match ci.to_str with
    | some v =>
      if ci_allow_list.contains v then some ColorLevel.Ansi256 else none
    | none => some ColorLevel.Ansi
  | none => none

/-- Modelled from the spec: §4.1 rule 7's signal, a color-capability-term
variable indicating true-color support. -/
def spec_colorterm_true (env : Env) : Bool :=
  match env.colorterm_var with
  | some ct => ct.eq_str "truecolor" || ct.eq_str "24bit"
  | none => false

/-- Modelled from the spec: §4.1 rule 8's signal, a terminal type string
ending in a 256-color suffix. -/
def spec_term_256 (env : Env) : Bool :=
  match env.term_var with
  | some (.valid s) => str_ends_with s "-256color" || str_ends_with s "256"
  | _ => false

/-- Modelled from the spec: the ordered outcomes of §4.1 rules 2 through 8
(rule 1 appears as the force-enable guard on rules 2 and 3; rule 4 is the
platform short-circuit; rule 9 is the default, applied when no rule here
matches). -/
def spec_rule_results (env : Env) : List (Option ColorLevel) :=
  [ if !(FORCE_COLOR env) && no_color_flag env then some ColorLevel.None
    else none,
    if spec_term_dumb env && !(FORCE_COLOR env) then some ColorLevel.None
    else none,
    if env.platform_windows then some ColorLevel.TrueColor else none,
    if env.tmux_var.isSome then some ColorLevel.Ansi else none,
    spec_ci_rule env,
    if spec_colorterm_true env then some ColorLevel.TrueColor else none,
    if spec_term_256 env then some ColorLevel.Ansi256 else none ]

/-- Modelled from the spec: §4.1's decision procedure — the first matching
rule wins, and when no rule matches the result defaults to `Basic`
(= `Ansi`). -/
def spec_color_level (env : Env) : ColorLevel :=
  ((spec_rule_results env).findSome? id).getD ColorLevel.Ansi

/-! Render layer. `colors.rs` renders a `Style` through
`termcolor::Ansi`, an escape-sequence writer over the formatter: the
`Display` impl (colors.rs lines 218-231) calls `set_color`, writes the
payload, then calls `reset`, propagating any write failure with `?`. The
definitions below embed the `Ansi` writer of the vendored `termcolor`
dependency (its `set_color` writes a reset sequence first — the
`ColorSpec` `reset` flag is on by default — then one SGR sequence per set
attribute in the order bold, dimmed, italic, underline, foreground,
background). A render is the ordered list of `write_str` calls the
formatter receives; a sink that can fail is modelled by the number of
write calls it accepts before failing. -/

/-- Embeds `termcolor::Color` (the variants `colors.rs` imports). The
`Ansi256` payload is a `u8`; only 8 and 245 are used by this crate. -/
inductive Color where
  | Black
  | Blue
  | Green
  | Red
  | Cyan
  | Magenta
  | Yellow
  | White
  | Ansi256 (n : Nat)
deriving DecidableEq

/-- Embeds `termcolor::ColorSpec`. `ColorSpec::new` gives the defaults
below; the `reset` flag defaults to `true` (termcolor documents that a
reset escape is then written before the color escapes). The
`strikethrough` field is never set by `colors.rs` and is omitted. -/
structure ColorSpec where
  fg_color : Option Color := none
  bg_color : Option Color := none
  bold : Bool := false
  intense : Bool := false
  underline : Bool := false
  dimmed : Bool := false
  italic : Bool := false
  reset : Bool := true
deriving DecidableEq

/-- Embeds `ColorSpec::new`. -/
def ColorSpec.new : ColorSpec := {}

/-- Embeds `ColorSpec::set_fg`. -/
def ColorSpec.set_fg (s : ColorSpec) (c : Option Color) : ColorSpec :=
  { s with fg_color := c }

/-- Embeds `ColorSpec::set_bg`. -/
def ColorSpec.set_bg (s : ColorSpec) (c : Option Color) : ColorSpec :=
  { s with bg_color := c }

/-- Embeds `ColorSpec::set_bold`. -/
def ColorSpec.set_bold (s : ColorSpec) (b : Bool) : ColorSpec :=
  { s with bold := b }

/-- Embeds `ColorSpec::set_intense`. -/
def ColorSpec.set_intense (s : ColorSpec) (b : Bool) : ColorSpec :=
  { s with intense := b }

/-- Embeds `ColorSpec::set_underline`. -/
def ColorSpec.set_underline (s : ColorSpec) (b : Bool) : ColorSpec :=
  { s with underline := b }

/-- Embeds `ColorSpec::set_dimmed`. -/
def ColorSpec.set_dimmed (s : ColorSpec) (b : Bool) : ColorSpec :=
  { s with dimmed := b }

/-- Embeds `ColorSpec::set_italic`. -/
def ColorSpec.set_italic (s : ColorSpec) (b : Bool) : ColorSpec :=
  { s with italic := b }

/-- The ANSI SGR reset sequence, written by `Ansi::reset`. -/
def reset_seq : String := "\x1b[0m"

/-- Embeds `termcolor` `Ansi::write_color`: the `write_str` calls emitted
for one color attribute. Normal colors use `CSI 3Xm` (foreground) /
`CSI 4Xm` (background); intense named colors and 256-palette colors use
the `38;5;N` / `48;5;N` forms, a 256-palette index being written in three
separate write calls. -/
def ansi_color_writes (fg : Bool) (c : Color) (intense : Bool) :
    List String :=
  if intense then
    match c with
    | .Black => [if fg then "\x1b[38;5;8m" else "\x1b[48;5;8m"]
    | .Blue => [if fg then "\x1b[38;5;12m" else "\x1b[48;5;12m"]
    | .Green => [if fg then "\x1b[38;5;10m" else "\x1b[48;5;10m"]
    | .Red => [if fg then "\x1b[38;5;9m" else "\x1b[48;5;9m"]
    | .Cyan => [if fg then "\x1b[38;5;14m" else "\x1b[48;5;14m"]
    | .Magenta => [if fg then "\x1b[38;5;13m" else "\x1b[48;5;13m"]
    | .Yellow => [if fg then "\x1b[38;5;11m" else "\x1b[48;5;11m"]
    | .White => [if fg then "\x1b[38;5;15m" else "\x1b[48;5;15m"]
    | .Ansi256 n =>
      if fg then ["\x1b[38;5;", toString n, "m"]
      else ["\x1b[48;5;", toString n, "m"]
  else
    match c with
    | .Black => [if fg then "\x1b[30m" else "\x1b[40m"]
    | .Blue => [if fg then "\x1b[34m" else "\x1b[44m"]
    | .Green => [if fg then "\x1b[32m" else "\x1b[42m"]
    | .Red => [if fg then "\x1b[31m" else "\x1b[41m"]
    | .Cyan => [if fg then "\x1b[36m" else "\x1b[46m"]
    | .Magenta => [if fg then "\x1b[35m" else "\x1b[45m"]
    | .Yellow => [if fg then "\x1b[33m" else "\x1b[43m"]
    | .White => [if fg then "\x1b[37m" else "\x1b[47m"]
    | .Ansi256 n =>
      if fg then ["\x1b[38;5;", toString n, "m"]
      else ["\x1b[48;5;", toString n, "m"]

/-- Embeds `termcolor` `Ansi::set_color`: the `write_str` calls emitted for
a whole `ColorSpec` — a reset when the (default-on) `reset` flag is set,
then bold, dimmed, italic, underline, foreground, background. -/
def set_color_writes (spec : ColorSpec) : List String :=
  (if spec.reset then [reset_seq] else []) ++
  (if spec.bold then ["\x1b[1m"] else []) ++
  (if spec.dimmed then ["\x1b[2m"] else []) ++
  (if spec.italic then ["\x1b[3m"] else []) ++
  (if spec.underline then ["\x1b[4m"] else []) ++
  (match spec.fg_color with
   | some c => ansi_color_writes true c spec.intense
   | none => []) ++
  (match spec.bg_color with
   | some c => ansi_color_writes false c spec.intense
   | none => [])

/-- Embeds `pub struct Style<I>` (colors.rs lines 213-216); the payload is
modelled by the string its `Display` impl renders to. -/
structure Style where
  colorspec : ColorSpec
  inner : String
deriving DecidableEq

/-- Embeds `fn style` (colors.rs lines 233-239). -/
def style (s : String) (colorspec : ColorSpec) : Style :=
  { colorspec := colorspec, inner := s }

/-- Embeds `impl fmt::Display for Style` (colors.rs lines 218-231) as the
ordered list of `write_str` calls the formatter receives: with color off,
the payload alone; with color on, `set_color`'s escape sequences, the
payload, then the reset sequence. -/
def Style.fmt_writes (st : Style) (useColor : Bool) : List String :=
  if !useColor then [st.inner]
  else set_color_writes st.colorspec ++ [st.inner] ++ [reset_seq]

/-- The full rendered output of a `Style` (the concatenation of all
`write_str` calls when every write succeeds). -/
def Style.render (st : Style) (useColor : Bool) : String :=
  String.join (st.fmt_writes useColor)

/-- The start escape sequence a colored render emits before the payload
(everything `set_color` writes). -/
def start_seq (spec : ColorSpec) : String :=
  String.join (set_color_writes spec)

/-- Runs a list of `write_str` calls against a sink that accepts `budget`
writes and fails each one after that. A failing write stores nothing, and
per the `?` operator in the `Display` impl no later write is attempted.
Returns the sink contents and whether every write succeeded (`fmt::Result`
being `Err` exactly when the flag is `false`). -/
def run_writes (budget : Nat) : List String → String × Bool
  | [] => ("", true)
  | w :: ws =>
    match budget with
    | 0 => ("", false)
    | b + 1 =>
      let r := run_writes b ws
      (w ++ r.1, r.2)

/-! Style constructors (colors.rs lines 241-367). -/

/-- Embeds `pub fn red_bold` (colors.rs lines 241-245). -/
def red_bold (s : String) : Style :=
  style s ((ColorSpec.new.set_fg (some .Red)).set_bold true)

/-- Embeds `pub fn green_bold` (colors.rs lines 247-251). -/
def green_bold (s : String) : Style :=
  style s ((ColorSpec.new.set_fg (some .Green)).set_bold true)

/-- Embeds `pub fn yellow_bold` (colors.rs lines 253-257). -/
def yellow_bold (s : String) : Style :=
  style s ((ColorSpec.new.set_fg (some .Yellow)).set_bold true)

/-- Embeds `pub fn italic` (colors.rs lines 259-263). -/
def italic (s : String) : Style :=
  style s (ColorSpec.new.set_italic true)

/-- Embeds `pub fn italic_gray` (colors.rs lines 265-269). -/
def italic_gray (s : String) : Style :=
  style s ((ColorSpec.new.set_fg (some (.Ansi256 8))).set_italic true)

/-- Embeds `pub fn italic_bold` (colors.rs lines 271-275). -/
def italic_bold (s : String) : Style :=
  style s ((ColorSpec.new.set_bold true).set_italic true)

/-- Embeds `pub fn white_on_red` (colors.rs lines 277-281). -/
def white_on_red (s : String) : Style :=
  style s ((ColorSpec.new.set_bg (some .Red)).set_fg (some .White))

/-- Embeds `pub fn black_on_green` (colors.rs lines 283-287). -/
def black_on_green (s : String) : Style :=
  style s ((ColorSpec.new.set_bg (some .Green)).set_fg (some .Black))

/-- Embeds `pub fn yellow` (colors.rs lines 289-293). -/
def yellow (s : String) : Style :=
  style s (ColorSpec.new.set_fg (some .Yellow))

/-- Embeds `pub fn cyan` (colors.rs lines 295-299). -/
def cyan (s : String) : Style :=
  style s (ColorSpec.new.set_fg (some .Cyan))

/-- Embeds `pub fn cyan_with_underline` (colors.rs lines 301-307). -/
def cyan_with_underline (s : String) : Style :=
  style s ((ColorSpec.new.set_fg (some .Cyan)).set_underline true)

/-- Embeds `pub fn cyan_bold` (colors.rs lines 309-313). -/
def cyan_bold (s : String) : Style :=
  style s ((ColorSpec.new.set_fg (some .Cyan)).set_bold true)

/-- Embeds `pub fn magenta` (colors.rs lines 315-319). -/
def magenta (s : String) : Style :=
  style s (ColorSpec.new.set_fg (some .Magenta))

/-- Embeds `pub fn red` (colors.rs lines 321-325). -/
def red (s : String) : Style :=
  style s (ColorSpec.new.set_fg (some .Red))

/-- Embeds `pub fn green` (colors.rs lines 327-331). -/
def green (s : String) : Style :=
  style s (ColorSpec.new.set_fg (some .Green))

/-- Embeds `pub fn bold` (colors.rs lines 333-337). -/
def bold (s : String) : Style :=
  style s (ColorSpec.new.set_bold true)

/-- Embeds `pub fn gray` (colors.rs lines 339-343). -/
def gray (s : String) : Style :=
  style s (ColorSpec.new.set_fg (some (.Ansi256 245)))

/-- Embeds `pub fn dimmed_gray` (colors.rs lines 345-349). -/
def dimmed_gray (s : String) : Style :=
  style s ((ColorSpec.new.set_dimmed true).set_fg (some (.Ansi256 245)))

/-- Embeds `pub fn intense_blue` (colors.rs lines 351-355). -/
def intense_blue (s : String) : Style :=
  style s ((ColorSpec.new.set_fg (some .Blue)).set_intense true)

/-- Embeds `pub fn white_bold_on_red` (colors.rs lines 357-366). -/
def white_bold_on_red (s : String) : Style :=
  style s (((ColorSpec.new.set_bold true).set_bg (some .Red)).set_fg
    (some .White))

/-- All style constructors of colors.rs, applied to a payload. -/
def all_styles (s : String) : List Style :=
  [red_bold s, green_bold s, yellow_bold s, italic s, italic_gray s,
   italic_bold s, white_on_red s, black_on_green s, yellow s, cyan s,
   cyan_with_underline s, cyan_bold s, magenta s, red s, green s, bold s,
   gray s, dimmed_gray s, intense_blue s, white_bold_on_red s]

/-! Process state: the use-color flag and the TTY queries. -/

/-- The mutable process state: the `USE_COLOR` atomic flag. -/
structure ProcState where
  use_color_flag : Bool
deriving DecidableEq

/-- The process state after the lazy `USE_COLOR` initialization
(colors.rs lines 31-51). -/
def init_proc_state (env : Env) : ProcState :=
  { use_color_flag := USE_COLOR_init env }

/-- Embeds `pub fn use_color` (colors.rs lines 152-154): an atomic load of
the flag. -/
def use_color (s : ProcState) : Bool :=
  s.use_color_flag

/-- Embeds `pub fn set_use_color` (colors.rs lines 164-166): an atomic
store that overwrites the flag. -/
def set_use_color (b : Bool) (_s : ProcState) : ProcState :=
  { use_color_flag := b }

/-- Rendering a `Style` in a process state: the `Display` impl reads
`use_color()` at render time. -/
def render_in (st : Style) (s : ProcState) : String :=
  st.render (use_color s)

/-- The full process inputs: the environment plus whether each standard
stream is attached to a terminal (the platform facts read by
`is_stdout_tty` / `is_stderr_tty` in lib.rs lines 10-21). -/
structure ProcessInputs where
  env : Env
  stdout_is_terminal : Bool
  stderr_is_terminal : Bool
deriving DecidableEq

/-- Embeds `pub fn is_stdout_tty` (lib.rs lines 15-17). -/
def is_stdout_tty (p : ProcessInputs) : Bool :=
  p.stdout_is_terminal

/-- Embeds `pub fn is_stderr_tty` (lib.rs lines 19-21). -/
def is_stderr_tty (p : ProcessInputs) : Bool :=
  p.stderr_is_terminal

/-- `get_color_level` as a function of the full process inputs. -/
def get_color_level_of_inputs (p : ProcessInputs) : ColorLevel :=
  COLOR_LEVEL p.env

/-- The initial `USE_COLOR` value as a function of the full process
inputs. -/
def use_color_init_of_inputs (p : ProcessInputs) : Bool :=
  USE_COLOR_init p.env

/-- Modelled from the spec (§7 / claim C2): the property that a failed
colored render leaves no unterminated start escape — whenever the render
surfaces an error, either the start sequence was never (fully) emitted, or
a reset sequence still follows it in the sink. -/
def no_dangling_escape (spec : ColorSpec) (payload : String) (budget : Nat) :
    Prop :=
  (run_writes budget ((style payload spec).fmt_writes true)).2 = false →
    ((start_seq spec).data.isPrefixOf
        (run_writes budget ((style payload spec).fmt_writes true)).1.data
        = false ∨
      reset_seq.data.isSuffixOf
        ((run_writes budget
            ((style payload spec).fmt_writes true)).1.data.drop
          (start_seq spec).data.length) = true)

/-! Helper lemmas. -/

theorem foldl_string_append_init (ws : List String) (a : String) :
    ws.foldl (· ++ ·) a = a ++ ws.foldl (· ++ ·) "" := by
  induction ws generalizing a with
  | nil => simp [String.append_empty]
  | cons w ws ih =>
    simp only [List.foldl_cons]
    rw [ih (a ++ w), ih ("" ++ w), String.append_assoc]
    rfl

theorem join_cons (w : String) (ws : List String) :
    String.join (w :: ws) = w ++ String.join ws := by
  unfold String.join
  simp only [List.foldl_cons]
  rw [foldl_string_append_init]
  rfl

theorem join_append (xs ys : List String) :
    String.join (xs ++ ys) = String.join xs ++ String.join ys := by
  induction xs with
  | nil => rfl
  | cons x xs ih => simp [join_cons, ih, String.append_assoc]

theorem join_nil : String.join ([] : List String) = "" := rfl

theorem run_writes_err_iff (budget : Nat) (ws : List String) :
    (run_writes budget ws).2 = false ↔ budget < ws.length := by
  induction ws generalizing budget with
  | nil => simp [run_writes]
  | cons w ws ih =>
    cases budget with
    | zero => simp [run_writes]
    | succ b => simpa [run_writes, Nat.succ_lt_succ_iff] using ih b

theorem run_writes_complete (budget : Nat) (ws : List String)
    (h : ws.length ≤ budget) :
    (run_writes budget ws).1 = String.join ws := by
  induction ws generalizing budget with
  | nil => simp [run_writes, String.join]
  | cons w ws ih =>
    cases budget with
    | zero => exact absurd h (by simp)
    | succ b =>
      simp only [run_writes, join_cons]
      rw [ih b (Nat.succ_le_succ_iff.mp h)]

theorem dumb_has_no_256_suffix :
    (str_ends_with "dumb" "-256color" = false) ∧
    (str_ends_with "dumb" "256" = false) := by decide

theorem platform_step_ne_none (env : Env) (term : String) :
    platform_step env term ≠ ColorLevel.None := by
  unfold platform_step tmux_step ci_step colorterm_step suffix_step
  rcases env.ci_var with _ | (s | _) <;>
  rcases env.colorterm_var with _ | ctv <;>
  dsimp only [OsString.to_str] <;>
  split_ifs <;>
  simp_all

/-- C1: for every process environment, `get_color_level()` is computed by
the nine signal rules of §4.1 in the stated precedence order with the first
matching rule determining the result (`COLOR_LEVEL` equals the spec's
ordered first-match procedure `spec_color_level`), and a non-empty
force-enable variable bypasses detection in favor of "enabled": the
resolved level is then never `None`. -/
theorem color_level_matches_spec_rule_order (env : Env) :
    COLOR_LEVEL env = spec_color_level env ∧
    (FORCE_COLOR env = true → COLOR_LEVEL env ≠ ColorLevel.None) := by
  constructor
  · obtain ⟨f, n, t, x, c, ct, w⟩ := env
    cases hF : FORCE_COLOR ⟨f, n, t, x, c, ct, w⟩ <;>
    cases hN : no_color_flag ⟨f, n, t, x, c, ct, w⟩ <;>
    rcases t with _ | (ts | _) <;>
    rcases x with _ | xv <;>
    cases w <;>
    rcases c with _ | (cs | _) <;>
    rcases ct with _ | (cts | _) <;>
    simp_all [COLOR_LEVEL, spec_color_level, spec_rule_results, spec_term_dumb,
      spec_ci_rule, spec_colorterm_true, spec_term_256, platform_step,
      tmux_step, ci_step, colorterm_step, suffix_step, List.findSome?,
      OsString.eq_str, OsString.to_str, dumb_has_no_256_suffix.1,
      dumb_has_no_256_suffix.2] <;>
    split_ifs <;>
    simp_all
  · intro hF
    unfold COLOR_LEVEL
    rw [hF]
    simp only [Bool.not_true, Bool.false_and, Bool.and_false, if_false]
    cases env.term_var with
    | none => exact platform_step_ne_none env "dumb"
    | some tv =>
      simp only [Bool.and_false, if_false]
      exact platform_step_ne_none env (tv.to_str.getD "dumb")

/-- Witness for C1 at a concrete environment: `FORCE_COLOR=1`, `NO_COLOR=1`,
`TERM=dumb` — detection still resolves (to a non-`None` level) and agrees
with the spec's rule order. -/
theorem color_level_matches_spec_rule_order_witness :
    FORCE_COLOR ⟨some (.valid "1"), some (.valid "1"), some (.valid "dumb"),
        none, none, none, false⟩ = true ∧
    COLOR_LEVEL ⟨some (.valid "1"), some (.valid "1"), some (.valid "dumb"),
        none, none, none, false⟩ ≠ ColorLevel.None ∧
    COLOR_LEVEL ⟨some (.valid "1"), some (.valid "1"), some (.valid "dumb"),
        none, none, none, false⟩ =
      spec_color_level ⟨some (.valid "1"), some (.valid "1"),
        some (.valid "dumb"), none, none, none, false⟩ :=
  ⟨by decide,
   (color_level_matches_spec_rule_order _).2 (by decide),
   (color_level_matches_spec_rule_order _).1⟩

/-- C2 counterexample: the claim fails on the code at a concrete input.
Rendering `red_bold "x"` with color enabled into a sink that accepts four
`write_str` calls and then fails, the error is surfaced but the sink is
left holding the full start sequence followed by the payload text with no
reset sequence after it — an unterminated start escape. -/
theorem render_failure_dangling_start_counterexample :
    ¬ no_dangling_escape ((red_bold "x").colorspec) "x" 4 := by
  unfold no_dangling_escape
  decide

/-- C2 amended: on a write failure during a colored render the error is
propagated to the caller, never silently discarded — the render reports an
error exactly when the sink fails one of the attempted writes — and when
every write succeeds the sink holds the full render; but the code does not
buffer, so a failure after the start sequence was written (during the
payload or reset write) leaves the sink with the start sequence and no
terminating reset. -/
theorem render_failure_error_propagated (spec : ColorSpec) (payload : String)
    (budget : Nat) :
    ((run_writes budget ((style payload spec).fmt_writes true)).2 = false ↔
      budget < ((style payload spec).fmt_writes true).length) ∧
    (((style payload spec).fmt_writes true).length ≤ budget →
      (run_writes budget ((style payload spec).fmt_writes true)).1 =
        (style payload spec).render true) :=
  ⟨run_writes_err_iff _ _, fun h => run_writes_complete _ _ h⟩

/-- Witness for C2's amended theorem at a concrete input: with 5 accepted
writes the red-bold render of `"x"` completes and the sink holds the full
render; with 4 accepted writes the render reports an error. -/
theorem render_failure_error_propagated_witness :
    (((style "x" ((red_bold "x").colorspec)).fmt_writes true).length ≤ 5 ∧
      (run_writes 5 ((style "x" ((red_bold "x").colorspec)).fmt_writes
          true)).1 = (style "x" ((red_bold "x").colorspec)).render true) ∧
    (run_writes 4 ((style "x" ((red_bold "x").colorspec)).fmt_writes
        true)).2 = false :=
  ⟨⟨by decide,
    (render_failure_error_propagated ((red_bold "x").colorspec) "x" 5).2
      (by decide)⟩,
   (render_failure_error_propagated ((red_bold "x").colorspec) "x" 4).1.mpr
     (by decide)⟩

/-- C3: rendering any styled value while `use_color()` is false produces
output byte-identical to the unwrapped payload, with no escape sequences
emitted (the formatter receives exactly one write, of the payload); in
particular this holds for every style constructor of colors.rs. -/
theorem render_color_disabled_plain (spec : ColorSpec) (payload : String) :
    (style payload spec).render false = payload ∧
    (style payload spec).fmt_writes false = [payload] ∧
    ∀ st ∈ all_styles payload, st.render false = payload := by
  refine ⟨rfl, rfl, ?_⟩
  intro st h
  fin_cases h <;> rfl

/-- Witness for C3 at a concrete input: `red_bold "x"` rendered with color
off is `"x"`. -/
theorem render_color_disabled_plain_witness :
    red_bold "x" ∈ all_styles "x" ∧ (red_bold "x").render false = "x" :=
  ⟨by decide,
   (render_color_disabled_plain ((red_bold "x").colorspec) "x").2.2
     (red_bold "x") (by decide)⟩

/-- C4: the use-color decision is read at render time, not at construction
time. A `Style` value carries no flag; for every environment-derived
initial state, calling `set_use_color b` before rendering makes the render
obey `b`: with `b = true` the output is escape-wrapped (start sequence,
payload, reset) even if the environment disabled color, and with
`b = false` it is the plain payload regardless of the environment. -/
theorem set_use_color_effective_at_render (env : Env) (b : Bool)
    (st : Style) :
    render_in st (set_use_color b (init_proc_state env)) = st.render b ∧
    (b = true → render_in st (set_use_color b (init_proc_state env)) =
        start_seq st.colorspec ++ (st.inner ++ reset_seq)) ∧
    (b = false → render_in st (set_use_color b (init_proc_state env)) =
        st.inner) := by
  refine ⟨rfl, ?_, ?_⟩
  · rintro rfl
    show st.render true = _
    rw [Style.render, Style.fmt_writes]
    simp [join_append, join_cons, join_nil, start_seq, String.append_empty]
  · rintro rfl
    rfl

/-- Witness for C4 at a concrete input: with `NO_COLOR=1` in the
environment, `set_use_color true` still renders `red "x"` escape-wrapped,
and with `FORCE_COLOR=1`, `set_use_color false` still renders plain. -/
theorem set_use_color_effective_at_render_witness :
    render_in (red "x") (set_use_color true (init_proc_state
        ⟨none, some (.valid "1"), none, none, none, none, false⟩)) =
      start_seq (red "x").colorspec ++ ("x" ++ reset_seq) ∧
    render_in (red "x") (set_use_color false (init_proc_state
        ⟨some (.valid "1"), none, none, none, none, none, false⟩)) = "x" :=
  ⟨(set_use_color_effective_at_render
      ⟨none, some (.valid "1"), none, none, none, none, false⟩ true
      (red "x")).2.1 rfl,
   (set_use_color_effective_at_render
      ⟨some (.valid "1"), none, none, none, none, none, false⟩ false
      (red "x")).2.2 rfl⟩

/-- C5: the `USE_COLOR` flag's first-read initialization. A non-empty
disable-color variable with force-enable unset yields `false`; a non-empty
force-enable variable yields `true` even when the disable-color variable is
also set (force-enable strictly dominant); an absent or empty disable-color
variable yields `true`. -/
theorem use_color_init_from_env (env : Env) :
    (env.force_color_var = none → no_color_flag env = true →
      USE_COLOR_init env = false) ∧
    (FORCE_COLOR env = true → USE_COLOR_init env = true) ∧
    (no_color_flag env = false → USE_COLOR_init env = true) := by
  refine ⟨?_, ?_, ?_⟩
  · intro h1 h2
    simp [USE_COLOR_init, FORCE_COLOR, h1, h2]
  · intro h
    simp [USE_COLOR_init, h]
  · intro h
    cases hf : FORCE_COLOR env <;> simp [USE_COLOR_init, hf, h]

/-- Witness for C5 at concrete inputs: `NO_COLOR=1` alone gives `false`;
`FORCE_COLOR=1` with `NO_COLOR=1` gives `true`; the empty environment gives
`true`. -/
theorem use_color_init_from_env_witness :
    USE_COLOR_init ⟨none, some (.valid "1"), none, none, none, none,
      false⟩ = false ∧
    USE_COLOR_init ⟨some (.valid "1"), some (.valid "1"), none, none, none,
      none, false⟩ = true ∧
    USE_COLOR_init ⟨none, none, none, none, none, none, false⟩ = true :=
  ⟨(use_color_init_from_env
      ⟨none, some (.valid "1"), none, none, none, none, false⟩).1 rfl
      (by decide),
   (use_color_init_from_env
      ⟨some (.valid "1"), some (.valid "1"), none, none, none, none,
        false⟩).2.1 (by decide),
   (use_color_init_from_env
      ⟨none, none, none, none, none, none, false⟩).2.2 (by decide)⟩

/-- C6: when no higher-precedence rule matches (no disable signal, no dumb
terminal, not the windows platform arm, no multiplexer), a `CI` variable
holding one of the seven allow-listed vendor names resolves
`get_color_level()` to `Ansi256` (the spec's `Extended`), and a `CI`
variable whose value is not decodable as text resolves to `Ansi` (the
spec's `Basic`) — a conservative fallback, never a fatal condition. -/
theorem ci_identity_levels (env : Env) (v : String)
    (h1 : (!(FORCE_COLOR env) && no_color_flag env) = false)
    (h2 : (spec_term_dumb env && !(FORCE_COLOR env)) = false)
    (h3 : env.platform_windows = false)
    (h4 : env.tmux_var = none) :
    (env.ci_var = some (.valid v) → ci_allow_list.contains v = true →
      get_color_level env = ColorLevel.Ansi256) ∧
    (env.ci_var = some .invalid → get_color_level env = ColorLevel.Ansi) := by
  constructor <;> [intro hc hv; intro hc] <;>
  rcases ht : env.term_var with _ | tv <;>
  simp_all [get_color_level, COLOR_LEVEL, platform_step, tmux_step, ci_step,
    spec_term_dumb, OsString.to_str] <;>
  split_ifs <;>
  simp_all

/-- Witness for C6 at concrete inputs: `CI=GITHUB_ACTIONS` alone resolves
to `Ansi256`; a non-decodable `CI` value alone resolves to `Ansi`. -/
theorem ci_identity_levels_witness :
    get_color_level ⟨none, none, none, none, some (.valid "GITHUB_ACTIONS"),
      none, false⟩ = ColorLevel.Ansi256 ∧
    get_color_level ⟨none, none, none, none, some .invalid, none, false⟩ =
      ColorLevel.Ansi :=
  ⟨(ci_identity_levels
      ⟨none, none, none, none, some (.valid "GITHUB_ACTIONS"), none, false⟩
      "GITHUB_ACTIONS" (by decide) (by decide) rfl rfl).1 rfl (by decide),
   (ci_identity_levels
      ⟨none, none, none, none, some .invalid, none, false⟩
      "" (by decide) (by decide) rfl rfl).2 rfl⟩

/-- C7: when `TERM` equals the non-capable sentinel `"dumb"` and the
force-enable variable is absent, `get_color_level()` returns `None`. -/
theorem dumb_term_resolves_none (env : Env)
    (hterm : env.term_var = some (.valid "dumb"))
    (hforce : env.force_color_var = none) :
    get_color_level env = ColorLevel.None := by
  have hF : FORCE_COLOR env = false := by simp [FORCE_COLOR, hforce]
  cases hn : no_color_flag env <;>
  simp_all [get_color_level, COLOR_LEVEL, OsString.eq_str]

/-- Witness for C7 at a concrete input: `TERM=dumb` alone resolves to
`None`. -/
theorem dumb_term_resolves_none_witness :
    get_color_level ⟨none, none, some (.valid "dumb"), none, none, none,
      false⟩ = ColorLevel.None :=
  dumb_term_resolves_none
    ⟨none, none, some (.valid "dumb"), none, none, none, false⟩ rfl rfl

/-- C8 counterexample: the claim fails on the code at a concrete input.
Rendering `red_bold "x"` with color enabled does not emit exactly the
standard SGR start sequence for bold + red foreground followed by the
payload and a reset (neither in combined `1;31` form nor as the two
separate sequences in either order): the ANSI writer first emits an extra
reset sequence, because the `ColorSpec` reset flag is on by default. -/
theorem red_bold_exact_sgr_counterexample :
    Style.render (red_bold "x") true = "\x1b[0m\x1b[1m\x1b[31mx\x1b[0m" ∧
    Style.render (red_bold "x") true ≠ "\x1b[1m\x1b[31mx\x1b[0m" ∧
    Style.render (red_bold "x") true ≠ "\x1b[1;31mx\x1b[0m" ∧
    Style.render (red_bold "x") true ≠ "\x1b[31m\x1b[1mx\x1b[0m" := by decide

/-- C8 amended: for every payload, rendering `red_bold` with color enabled
emits exactly a reset sequence, then the standard SGR bold sequence, then
the standard SGR red-foreground sequence, then the payload's literal text,
then a reset sequence. -/
theorem red_bold_render_bytes (payload : String) :
    Style.render (red_bold payload) true =
      "\x1b[0m" ++ ("\x1b[1m" ++ ("\x1b[31m" ++ (payload ++ "\x1b[0m"))) := by
  rw [Style.render, Style.fmt_writes]
  simp [red_bold, style, ColorSpec.new, ColorSpec.set_fg, ColorSpec.set_bold,
    set_color_writes, ansi_color_writes, reset_seq, join_cons, join_nil,
    String.append_empty]

/-- C9: a `CI` variable that is present and decodable but not one of the
seven allow-listed names determines nothing — `get_color_level()` equals
what it would be with `CI` unset, so resolution falls through to the later
rules. -/
theorem unrecognized_ci_falls_through (env : Env) (v : String)
    (hc : env.ci_var = some (.valid v))
    (hv : ci_allow_list.contains v = false) :
    get_color_level env = get_color_level { env with ci_var := none } := by
  obtain ⟨f, n, t, x, c, ct, w⟩ := env
  cases hc
  rcases t with _ | tv <;>
  simp_all [get_color_level, COLOR_LEVEL, FORCE_COLOR, no_color_flag,
    platform_step, tmux_step, ci_step, colorterm_step, suffix_step,
    OsString.to_str]

/-- Witness for C9 at a concrete input: with `CI=MYCI` (unrecognized) and
`TERM=xterm-256color`, resolution equals the `CI`-unset outcome. -/
theorem unrecognized_ci_falls_through_witness :
    get_color_level ⟨none, none, some (.valid "xterm-256color"), none,
        some (.valid "MYCI"), none, false⟩ =
      get_color_level ⟨none, none, some (.valid "xterm-256color"), none,
        none, none, false⟩ :=
  unrecognized_ci_falls_through
    ⟨none, none, some (.valid "xterm-256color"), none,
      some (.valid "MYCI"), none, false⟩ "MYCI" rfl (by decide)

/-- C10: neither the color-level resolution nor the use-color flag
initialization consults TTY status — two process inputs that agree on the
environment variables give identical `get_color_level()` and initial
`use_color()` results, whatever their stdout/stderr terminal status. -/
theorem color_decision_ignores_tty (p q : ProcessInputs)
    (h : p.env = q.env) :
    get_color_level_of_inputs p = get_color_level_of_inputs q ∧
    use_color_init_of_inputs p = use_color_init_of_inputs q := by
  unfold get_color_level_of_inputs use_color_init_of_inputs
  rw [h]
  exact ⟨rfl, rfl⟩

/-- Witness for C10 at concrete inputs: the same empty environment with
both streams a TTY versus neither gives different TTY query answers but
identical color decisions. -/
theorem color_decision_ignores_tty_witness :
    is_stdout_tty ⟨⟨none, none, none, none, none, none, false⟩, true,
      true⟩ = true ∧
    is_stdout_tty ⟨⟨none, none, none, none, none, none, false⟩, false,
      false⟩ = false ∧
    get_color_level_of_inputs ⟨⟨none, none, none, none, none, none, false⟩,
        true, true⟩ =
      get_color_level_of_inputs ⟨⟨none, none, none, none, none, none,
        false⟩, false, false⟩ ∧
    use_color_init_of_inputs ⟨⟨none, none, none, none, none, none, false⟩,
        true, true⟩ =
      use_color_init_of_inputs ⟨⟨none, none, none, none, none, none,
        false⟩, false, false⟩ :=
  ⟨rfl, rfl,
   (color_decision_ignores_tty
      ⟨⟨none, none, none, none, none, none, false⟩, true, true⟩
      ⟨⟨none, none, none, none, none, none, false⟩, false, false⟩ rfl).1,
   (color_decision_ignores_tty
      ⟨⟨none, none, none, none, none, none, false⟩, true, true⟩
      ⟨⟨none, none, none, none, none, none, false⟩, false, false⟩ rfl).2⟩

end DenoTerminal
